import Mathlib

/-!
Verification of the data models in `src/client/models.rs` of the
`blivedm_rs` danmaku client: a shallow embedding of the Rust structs,
their serde (de)serialization behaviour, and the constructors the spec
talks about, together with theorems settling the specification claims.

Rust machine integers are modelled as `Nat`/`Int` with explicit range
checks where serde enforces them (`u64` fields accept only JSON integers
in `[0, 2^64)`, `i64` fields only integers in `[-2^63, 2^63)`).
-/

/-- JSON values (`serde_json::Value`).  Numbers are modelled as integers:
every payload the embedded models serialize or are claimed to consume is
integral, so the float case is not needed for any claim. -/
inductive Json where
  | null : Json
  | bool : Bool → Json
  | num : Int → Json
  | str : String → Json
  | arr : List Json → Json
  | obj : List (String × Json) → Json

/-- First-occurrence association-list lookup, modelling field access on a
JSON object (serde matches struct fields by key name). -/
def assoc {α : Type} (fs : List (String × α)) (k : String) : Option α :=
  match fs with
  | [] => none
  | (k', v) :: rest => if k' = k then some v else assoc rest k

/-- `Medal` struct: fan-medal name and level (`models.rs` lines 108-114).
Level is an `i64`, modelled as `Int`. -/
structure Medal where
  name : String
  level : Int
deriving Repr, DecidableEq

/-- `CoinType` enum (`models.rs` lines 81-87): currency kind, `Silver` is
the `#[default]` variant. -/
inductive CoinType where
  | Silver : CoinType
  | Gold : CoinType
deriving Repr, DecidableEq

/-- The `#[default]` attribute on `CoinType::Silver`. -/
def CoinType.default : CoinType := .Silver

/-- `GiftData` struct (`models.rs` lines 89-100).  `uid` is a `u64`
(`Nat`), `num` and `price` are `i64` (`Int`); `gift_name` is renamed to
the JSON key `giftName` by `#[serde(rename)]`. -/
structure GiftData where
  gift_name : String
  uname : String
  uid : Nat
  num : Int
  price : Int
  coin_type : CoinType
  medal_info : Option Medal
  medal : Option Medal
deriving Repr, DecidableEq

/-- The `#[derive(Default)]` on `GiftData`: each field takes its Rust
default (`String` → `""`, `u64`/`i64` → `0`, `Option` → `None`,
`CoinType` → its `#[default]` variant). -/
def GiftData.defaultGift : GiftData :=
  { gift_name := ""
    uname := ""
    uid := 0
    num := 0
    price := 0
    coin_type := CoinType.default
    medal_info := none
    medal := none }

/-- serde deserialization of a `String` field: only a JSON string is
accepted. -/
def deserString : Json → Option String
  | .str s => some s
  | _ => none

/-- serde deserialization of a `u64` field: only a JSON integer in
`[0, 2^64)` is accepted (in particular a numeric JSON string is a type
error). -/
def deserU64 : Json → Option Nat
  | .num n => if 0 ≤ n ∧ n < 18446744073709551616 then some n.toNat else none
  | _ => none

/-- serde deserialization of an `i64` field: only a JSON integer in
`[-2^63, 2^63)` is accepted. -/
def deserI64 : Json → Option Int
  | .num n => if -9223372036854775808 ≤ n ∧ n < 9223372036854775808 then some n else none
  | _ => none

/-- serde deserialization of `CoinType` under
`#[serde(rename_all = "lowercase")]`: the strings `"silver"` and
`"gold"`. -/
def CoinType.deser : Json → Option CoinType
  | .str s => if s = "silver" then some .Silver
              else if s = "gold" then some .Gold else none
  | _ => none

/-- serde serialization of `CoinType` (lowercase variant names). -/
def CoinType.serialize : CoinType → Json
  | .Silver => .str "silver"
  | .Gold => .str "gold"

/-- serde deserialization of `Medal`: `name` may also arrive under the
`#[serde(alias = "medal_name")]` key, `level` under `medal_level`. -/
def Medal.deser : Json → Option Medal
  | .obj fs =>
      (((assoc fs "name").or (assoc fs "medal_name")).bind deserString).bind fun name =>
      (((assoc fs "level").or (assoc fs "medal_level")).bind deserI64).bind fun level =>
      some { name, level }
  | _ => none

/-- serde serialization of `Medal` (aliases only affect deserialization,
so the primary keys `name`/`level` are written). -/
def Medal.serialize (m : Medal) : Json :=
  .obj [("name", .str m.name), ("level", .num m.level)]

/-- serde handling of an `Option<Medal>` field: a missing key or an
explicit `null` is `None`; any other value must deserialize as a
`Medal`. -/
def deserOptMedal (fs : List (String × Json)) (k : String) : Option (Option Medal) :=
  match assoc fs k with
  | none => some none
  | some .null => some none
  | some v => (Medal.deser v).map some

/-- serde serialization of an `Option<Medal>` field (`None` becomes
`null`; no `skip_serializing_if` is present in the source). -/
def serializeOptMedal : Option Medal → Json
  | none => .null
  | some m => m.serialize

/-- Derived serde deserializer of `GiftData`: a JSON object providing all
six required fields with the correct types; the two `Option<Medal>`
fields default to `None` when absent; unknown keys are ignored (no
`deny_unknown_fields`). -/
def GiftData.deser : Json → Option GiftData
  | .obj fs =>
      ((assoc fs "giftName").bind deserString).bind fun gift_name =>
      ((assoc fs "uname").bind deserString).bind fun uname =>
      ((assoc fs "uid").bind deserU64).bind fun uid =>
      ((assoc fs "num").bind deserI64).bind fun num =>
      ((assoc fs "price").bind deserI64).bind fun price =>
      ((assoc fs "coin_type").bind CoinType.deser).bind fun coin_type =>
      (deserOptMedal fs "medal_info").bind fun medal_info =>
      (deserOptMedal fs "medal").bind fun medal =>
      some { gift_name, uname, uid, num, price, coin_type, medal_info, medal }
  | _ => none

/-- Derived serde serializer of `GiftData`: all eight fields in
declaration order, `gift_name` under its renamed key `giftName`. -/
def GiftData.serialize (g : GiftData) : Json :=
  .obj [ ("giftName", .str g.gift_name)
       , ("uname", .str g.uname)
       , ("uid", .num g.uid)
       , ("num", .num g.num)
       , ("price", .num g.price)
       , ("coin_type", g.coin_type.serialize)
       , ("medal_info", serializeOptMedal g.medal_info)
       , ("medal", serializeOptMedal g.medal) ]

/-- Range side-conditions carried implicitly by the Rust types: `level`
is an `i64`. -/
def Medal.wf (m : Medal) : Prop :=
  -9223372036854775808 ≤ m.level ∧ m.level < 9223372036854775808

/-- Range side-conditions carried implicitly by the Rust types of
`GiftData`: `uid : u64`, `num price : i64`, and any attached medal is
in `i64` range. -/
def GiftData.wf (g : GiftData) : Prop :=
  g.uid < 18446744073709551616 ∧
  (-9223372036854775808 ≤ g.num ∧ g.num < 9223372036854775808) ∧
  (-9223372036854775808 ≤ g.price ∧ g.price < 9223372036854775808) ∧
  (∀ m ∈ g.medal_info, m.wf) ∧
  (∀ m ∈ g.medal, m.wf)

/-- `UserBase` struct (`models.rs` lines 141-144): the display name. -/
structure UserBase where
  name : String
deriving Repr, DecidableEq

/-- `DanmuUser` struct (`models.rs` lines 116-121): uid, base user data
and optional fan medal. -/
structure DanmuUser where
  uid : Nat
  base : UserBase
  medal : Option Medal
deriving Repr, DecidableEq

/-- `DanmuUser::new` (`models.rs` lines 123-133): build a user from a
bare display name, with uid 0 and no medal. -/
def DanmuUser.new (name : String) : DanmuUser :=
  { uid := 0
    base := { name := name }
    medal := none }

/-- `BiliMessage` enum (`models.rs` lines 58-79): the business-event
type.  Besides the four documented shapes it still carries the
`Unsupported` variant, marked `#[deprecated(note = "Use Raw variant
instead")]` in the source. -/
inductive BiliMessage where
  | Danmu (user : DanmuUser) (text : String)
  | Gift (user : String) (gift : GiftData)
  | OnlineRankCount (count : Nat) (online_count : Nat)
  | Raw (value : Json)
  | Unsupported

/-- The four variant shapes named by the specification for the
business-event type. -/
def BiliMessage.isSpecVariant (m : BiliMessage) : Prop :=
  (∃ u t, m = .Danmu u t) ∨
  (∃ u g, m = .Gift u g) ∨
  (∃ c oc, m = .OnlineRankCount c oc) ∨
  (∃ v, m = .Raw v)

/-- `AuthMessage` struct (`models.rs` lines 35-43): the auth payload.
`uid`/`roomid` are `u64`, `protover`/`type_` are `i32`. -/
structure AuthMessage where
  uid : Nat
  roomid : Nat
  protover : Int
  platform : String
  type_ : Int
  key : String
deriving Repr, DecidableEq

/-- Rust `str::parse::<u64>()`: an optional leading `+`, then at least
one ASCII digit, and the value must fit in `u64`; anything else (empty
string, other characters, overflow) is an error. -/
def parseU64 (s : String) : Option Nat :=
  let cs := s.data
  let ds := if cs.head? = some '+' then cs.tail else cs
  if ds = [] then none
  else if ds.all (fun c => c.isDigit) then
    let n := ds.foldl (fun acc c => acc * 10 + (c.toNat - 48)) 0
    if n < 18446744073709551616 then some n else none
  else none

/-- `AuthMessage::from` (`models.rs` lines 45-56).  The Rust function
calls `.unwrap()` on each map lookup and on each numeric parse, so it
panics whenever one of them fails; panicking is modelled as `none`. -/
def AuthMessage.fromMap (map : List (String × String)) : Option AuthMessage :=
  ((assoc map "uid").bind parseU64).bind fun uid =>
  ((assoc map "room_id").bind parseU64).bind fun roomid =>
  (assoc map "token").bind fun key =>
  some { uid, roomid, protover := 3, platform := "web", type_ := 2, key }

/-- `DanmuServer` struct (`models.rs` lines 7-13): host and its three
port variants. -/
structure DanmuServer where
  host : String
  port : Int
  wss_port : Int
  ws_port : Int
deriving Repr, DecidableEq

/-- `DanmuServer::default` (`models.rs` lines 15-24). -/
def DanmuServer.default : DanmuServer :=
  { host := "broadcastlv.chat.bilibili.com"
    port := 2243
    wss_port := 443
    ws_port := 2244 }

/-- `MsgHead` struct (`models.rs` lines 26-33): the frame header.
`pack_len`/`operation`/`seq_id` are `u32`, `raw_header_size`/`ver` are
`u16`; all modelled as `Nat`. -/
structure MsgHead where
  pack_len : Nat
  raw_header_size : Nat
  ver : Nat
  operation : Nat
  seq_id : Nat
deriving Repr, DecidableEq

/-- Big-endian value of a byte list. -/
def beVal (bs : List Nat) : Nat :=
  bs.foldl (fun a b => a * 256 + b) 0

/-- Modelled from the spec: the frame parser is not under `src/` (only
the `MsgHead` wire type is).  Per spec §4.2/§6 it reads the fixed
16-byte header as big-endian fields (4-byte packet length, 2-byte header
length, 2-byte version, 4-byte operation, 4-byte sequence id), and per
§3/§4.1 it must reject a header whose `header_length` differs from the
fixed constant 16 or whose `packet_length` is below `header_length`,
rather than return a truncated value. -/
def parseMsgHead (bytes : List Nat) : Option MsgHead :=
  if bytes.length < 16 then none
  else if beVal ((bytes.drop 4).take 2) = 16 ∧
          beVal ((bytes.drop 4).take 2) ≤ beVal (bytes.take 4) then
    some { pack_len := beVal (bytes.take 4)
           raw_header_size := beVal ((bytes.drop 4).take 2)
           ver := beVal ((bytes.drop 6).take 2)
           operation := beVal ((bytes.drop 8).take 4)
           seq_id := beVal ((bytes.drop 12).take 4) }
  else none

/-- Field access on a JSON object value. -/
def Json.getField (j : Json) (k : String) : Option Json :=
  match j with
  | .obj fs => assoc fs k
  | _ => none

/-- Modelled from the spec: the Event Mapper (§4.3) is not under `src/`
(only the event and gift types are).  For a payload whose `cmd`
discriminator indicates a gift send, the gift fields are extracted from
the nested `data` object into `GiftData`; any payload that fails to
match the expected shape (missing field, parse failure) falls back to
`Raw` with the original value, never an error. -/
def mapGiftPayload (j : Json) : BiliMessage :=
  match j.getField "cmd" with
  | some (.str "SEND_GIFT") =>
    match j.getField "data" with
    | some d =>
      match GiftData.deser d with
      | some g => .Gift g.uname g
      | none => .Raw j
    | none => .Raw j
  | _ => .Raw j

/-- C1: for the session context uid=12345, room_id=67890,
token="test_token", `AuthMessage::from` returns the auth payload with
uid=12345, roomid=67890, protover=3, platform="web", type_=2,
key="test_token". -/
theorem C1_auth_fixture :
    AuthMessage.fromMap [("uid", "12345"), ("room_id", "67890"), ("token", "test_token")] =
      some { uid := 12345, roomid := 67890, protover := 3, platform := "web",
             type_ := 2, key := "test_token" } := by
  rfl

/-- C2 counterexample: the business-event type is not a closed set of
exactly the four claimed shapes — the deprecated `Unsupported` variant
of `BiliMessage` is a fifth value matching none of them. -/
theorem C2_counterexample : ¬ BiliMessage.isSpecVariant BiliMessage.Unsupported := by
  rintro (⟨u, t, h⟩ | ⟨u, g, h⟩ | ⟨c, oc, h⟩ | ⟨v, h⟩) <;> exact BiliMessage.noConfusion h

/-- C2 (amended): every value of the business-event type is one of the
four documented shapes or the deprecated `Unsupported` fallback — five
variants in total, no others. -/
theorem C2_five_variant_closed (m : BiliMessage) :
    BiliMessage.isSpecVariant m ∨ m = BiliMessage.Unsupported := by
  cases m with
  | Danmu u t => exact Or.inl (Or.inl ⟨u, t, rfl⟩)
  | Gift u g => exact Or.inl (Or.inr (Or.inl ⟨u, g, rfl⟩))
  | OnlineRankCount c oc => exact Or.inl (Or.inr (Or.inr (Or.inl ⟨c, oc, rfl⟩)))
  | Raw v => exact Or.inl (Or.inr (Or.inr (Or.inr ⟨v, rfl⟩)))
  | Unsupported => exact Or.inr rfl

/-- C5: `DanmuServer::default` is the well-known public broadcast
endpoint with its three port variants. -/
theorem C5_default_server :
    DanmuServer.default.host = "broadcastlv.chat.bilibili.com" ∧
    DanmuServer.default.port = 2243 ∧
    DanmuServer.default.wss_port = 443 ∧
    DanmuServer.default.ws_port = 2244 := by
  exact ⟨rfl, rfl, rfl, rfl⟩

/-- C6: for every display name, `DanmuUser::new` builds a user with
uid 0, that display name, and no fan medal. -/
theorem C6_user_from_name (n : String) :
    (DanmuUser.new n).uid = 0 ∧
    (DanmuUser.new n).base.name = n ∧
    (DanmuUser.new n).medal = none := by
  exact ⟨rfl, rfl, rfl⟩

/-- C7: the derived default `GiftData` has currency kind silver, both
medal fields `None`, quantity/price/uid 0, and empty name fields. -/
theorem C7_default_gift :
    GiftData.defaultGift.coin_type = CoinType.Silver ∧
    GiftData.defaultGift.medal_info = none ∧
    GiftData.defaultGift.medal = none ∧
    GiftData.defaultGift.num = 0 ∧
    GiftData.defaultGift.price = 0 ∧
    GiftData.defaultGift.uid = 0 ∧
    GiftData.defaultGift.gift_name = "" ∧
    GiftData.defaultGift.uname = "" := by
  exact ⟨rfl, rfl, rfl, rfl, rfl, rfl, rfl, rfl⟩

/-- C8: every header the (spec-modelled) frame parser returns satisfies
`pack_len ≥ raw_header_size` with `raw_header_size = 16`; anything else
is rejected. -/
theorem C8_header_invariant (bytes : List Nat) (h : MsgHead)
    (hp : parseMsgHead bytes = some h) :
    h.pack_len ≥ h.raw_header_size ∧ h.raw_header_size = 16 := by
  unfold parseMsgHead at hp
  split at hp
  · exact absurd hp (by simp)
  · split at hp
    · rename_i hc
      obtain ⟨h16, hle⟩ := hc
      obtain rfl : _ = h := Option.some.inj hp
      exact ⟨hle, h16⟩
    · exact absurd hp (by simp)

/-- C8 witness: a concrete valid 16-byte header is accepted and
satisfies the invariant. -/
theorem C8_header_invariant_witness :
    ({ pack_len := 16, raw_header_size := 16, ver := 1, operation := 8,
       seq_id := 1 } : MsgHead).pack_len ≥
      ({ pack_len := 16, raw_header_size := 16, ver := 1, operation := 8,
         seq_id := 1 } : MsgHead).raw_header_size ∧
    ({ pack_len := 16, raw_header_size := 16, ver := 1, operation := 8,
       seq_id := 1 } : MsgHead).raw_header_size = 16 :=
  C8_header_invariant [0, 0, 0, 16, 0, 16, 0, 1, 0, 0, 0, 8, 0, 0, 0, 1] _ (by rfl)

/-- C9: `AuthMessage::from` returns (rather than panics) exactly when
the map holds the keys "uid", "room_id" and "token" and the first two
values parse as `u64`. -/
theorem C9_fromMap_total_iff (map : List (String × String)) :
    (AuthMessage.fromMap map).isSome ↔
      ((assoc map "uid").bind parseU64).isSome ∧
      ((assoc map "room_id").bind parseU64).isSome ∧
      (assoc map "token").isSome := by
  unfold AuthMessage.fromMap
  cases hu : (assoc map "uid").bind parseU64 with
  | none => simp
  | some u =>
    cases hr : (assoc map "room_id").bind parseU64 with
    | none => simp
    | some r =>
      cases ht : assoc map "token" with
      | none => simp
      | some t => simp

/-- A concrete gift payload whose `uid` arrives as a JSON number. -/
def giftPayloadNumUid : Json :=
  .obj [ ("giftName", .str "flower"), ("uname", .str "alice"),
         ("uid", .num 12345), ("num", .num 1), ("price", .num 100),
         ("coin_type", .str "silver") ]

/-- The same gift payload with `uid` as a numeric JSON string. -/
def giftPayloadStrUid : Json :=
  .obj [ ("giftName", .str "flower"), ("uname", .str "alice"),
         ("uid", .str "12345"), ("num", .num 1), ("price", .num 100),
         ("coin_type", .str "silver") ]

/-- The same gift payload with `num` as a numeric JSON string. -/
def giftPayloadStrNum : Json :=
  .obj [ ("giftName", .str "flower"), ("uname", .str "alice"),
         ("uid", .num 12345), ("num", .str "1"), ("price", .num 100),
         ("coin_type", .str "silver") ]

/-- The same gift payload with `price` as a numeric JSON string. -/
def giftPayloadStrPrice : Json :=
  .obj [ ("giftName", .str "flower"), ("uname", .str "alice"),
         ("uid", .num 12345), ("num", .num 1), ("price", .str "100"),
         ("coin_type", .str "silver") ]

/-- C3 counterexample: the derived `GiftData` deserializer accepts the
numeric fields as JSON numbers but rejects each of `uid`, `num` and
`price` when the very same value arrives as a numeric JSON string, so
"both forms parse successfully" fails for every numeric field. -/
theorem C3_counterexample :
    GiftData.deser giftPayloadNumUid =
      some { gift_name := "flower", uname := "alice", uid := 12345, num := 1,
             price := 100, coin_type := .Silver, medal_info := none,
             medal := none } ∧
    GiftData.deser giftPayloadStrUid = none ∧
    GiftData.deser giftPayloadStrNum = none ∧
    GiftData.deser giftPayloadStrPrice = none := by
  exact ⟨rfl, rfl, rfl, rfl⟩

/-- C3 (amended): any of the numeric gift fields `uid`, `num`, `price`
given as a JSON string is a parse failure for `GiftData`, and any such
failure does not abort mapping — the (spec-modelled) mapper falls back
to the `Raw` event. -/
theorem C3_strict_numeric_raw_fallback (j d : Json) (fs : List (String × Json))
    (s : String)
    (hstr : assoc fs "uid" = some (.str s) ∨ assoc fs "num" = some (.str s) ∨
            assoc fs "price" = some (.str s))
    (hd : j.getField "data" = some d)
    (hfail : GiftData.deser d = none) :
    GiftData.deser (.obj fs) = none ∧ mapGiftPayload j = .Raw j := by
  constructor
  · show (((assoc fs "giftName").bind deserString).bind _) = none
    cases (assoc fs "giftName").bind deserString with
    | none => rfl
    | some gn =>
      cases (assoc fs "uname").bind deserString with
      | none => rfl
      | some un =>
        rcases hstr with huid | hnum | hprice
        · simp [huid, deserU64]
        · cases (assoc fs "uid").bind deserU64 with
          | none => rfl
          | some uid => simp [hnum, deserI64]
        · cases (assoc fs "uid").bind deserU64 with
          | none => rfl
          | some uid =>
            cases (assoc fs "num").bind deserI64 with
            | none => rfl
            | some num => simp [hprice, deserI64]
  · unfold mapGiftPayload
    split
    · simp only [hd, hfail]
    · rfl

/-- C3 witness: the amended statement at the concrete string-uid
payload wrapped in a `SEND_GIFT` command. -/
theorem C3_strict_numeric_raw_fallback_witness :
    GiftData.deser giftPayloadStrUid = none ∧
    mapGiftPayload (.obj [("cmd", .str "SEND_GIFT"), ("data", giftPayloadStrUid)]) =
      .Raw (.obj [("cmd", .str "SEND_GIFT"), ("data", giftPayloadStrUid)]) := by
  have h := C3_strict_numeric_raw_fallback
    (.obj [("cmd", .str "SEND_GIFT"), ("data", giftPayloadStrUid)])
    giftPayloadStrUid
    [ ("giftName", .str "flower"), ("uname", .str "alice"),
      ("uid", .str "12345"), ("num", .num 1), ("price", .num 100),
      ("coin_type", .str "silver") ]
    "12345" (Or.inl (by rfl)) (by rfl) (by rfl)
  exact ⟨h.1, h.2⟩

/-- C4: whenever a gift payload deserializes successfully, carries no
`medal_info` key, and holds a medal object under the `medal` key, the
decoded gift's `medal` field is populated. -/
theorem C4_medal_fallback_key (fs : List (String × Json)) (g : GiftData)
    (ms : List (String × Json))
    (hdes : GiftData.deser (.obj fs) = some g)
    (habsent : assoc fs "medal_info" = none)
    (hmedal : assoc fs "medal" = some (.obj ms)) :
    g.medal ≠ none := by
  simp only [GiftData.deser] at hdes
  obtain ⟨gn, hgn, hdes⟩ := Option.bind_eq_some.mp hdes
  obtain ⟨un, hun, hdes⟩ := Option.bind_eq_some.mp hdes
  obtain ⟨uid, huid, hdes⟩ := Option.bind_eq_some.mp hdes
  obtain ⟨num, hnum, hdes⟩ := Option.bind_eq_some.mp hdes
  obtain ⟨price, hprice, hdes⟩ := Option.bind_eq_some.mp hdes
  obtain ⟨ct, hct, hdes⟩ := Option.bind_eq_some.mp hdes
  obtain ⟨mi, hmi, hdes⟩ := Option.bind_eq_some.mp hdes
  obtain ⟨me, hme, hdes⟩ := Option.bind_eq_some.mp hdes
  obtain rfl : _ = g := Option.some.inj hdes
  unfold deserOptMedal at hme
  rw [hmedal] at hme
  obtain ⟨m, hm, hms⟩ := Option.map_eq_some'.mp hme
  show me ≠ none
  rw [← hms]
  exact Option.some_ne_none m

/-- C4 witness: a concrete gift payload with a medal under `medal` and
no `medal_info` key decodes with the medal populated. -/
theorem C4_medal_fallback_key_witness :
    ({ gift_name := "flower", uname := "alice", uid := 12345, num := 1,
       price := 100, coin_type := .Gold, medal_info := none,
       medal := some { name := "fans", level := 7 } } : GiftData).medal ≠ none :=
  C4_medal_fallback_key
    [ ("giftName", .str "flower"), ("uname", .str "alice"), ("uid", .num 12345),
      ("num", .num 1), ("price", .num 100), ("coin_type", .str "gold"),
      ("medal", .obj [("name", .str "fans"), ("level", .num 7)]) ]
    _ [("name", .str "fans"), ("level", .num 7)] (by rfl) (by rfl) (by rfl)

/-- Round-trip helper: a medal within `i64` range survives
serialize-then-deserialize. -/
theorem Medal.deser_serialize (m : Medal) (h : m.wf) :
    Medal.deser m.serialize = some m := by
  unfold Medal.wf at h
  obtain ⟨h1, h2⟩ := h
  cases m with
  | mk name level =>
    dsimp only at h1 h2
    simp only [Medal.serialize, Medal.deser, assoc]
    simp [deserString, deserI64, Option.or, h1, h2]

/-- Round-trip helper: an optional-medal field written by the serializer
is read back unchanged. -/
theorem deserOptMedal_serialize (fs : List (String × Json)) (k : String)
    (o : Option Medal) (hwf : ∀ m ∈ o, m.wf)
    (hl : assoc fs k = some (serializeOptMedal o)) :
    deserOptMedal fs k = some o := by
  unfold deserOptMedal
  rw [hl]
  cases o with
  | none => rfl
  | some m =>
    show (Medal.deser (Medal.serialize m)).map some = some (some m)
    rw [Medal.deser_serialize m (hwf m rfl)]
    rfl

/-- The field list written by the `GiftData` serializer, named so the
round-trip proof can reason about one lookup at a time. -/
def GiftData.fields (g : GiftData) : List (String × Json) :=
  [ ("giftName", .str g.gift_name)
  , ("uname", .str g.uname)
  , ("uid", .num g.uid)
  , ("num", .num g.num)
  , ("price", .num g.price)
  , ("coin_type", g.coin_type.serialize)
  , ("medal_info", serializeOptMedal g.medal_info)
  , ("medal", serializeOptMedal g.medal) ]

theorem GiftData.serialize_eq (g : GiftData) : g.serialize = .obj g.fields := rfl

theorem assoc_fields_giftName (g : GiftData) :
    assoc g.fields "giftName" = some (.str g.gift_name) := rfl

theorem assoc_fields_uname (g : GiftData) :
    assoc g.fields "uname" = some (.str g.uname) := rfl

theorem assoc_fields_uid (g : GiftData) :
    assoc g.fields "uid" = some (.num g.uid) := rfl

theorem assoc_fields_num (g : GiftData) :
    assoc g.fields "num" = some (.num g.num) := rfl

theorem assoc_fields_price (g : GiftData) :
    assoc g.fields "price" = some (.num g.price) := rfl

theorem assoc_fields_coin_type (g : GiftData) :
    assoc g.fields "coin_type" = some g.coin_type.serialize := rfl

theorem assoc_fields_medal_info (g : GiftData) :
    assoc g.fields "medal_info" = some (serializeOptMedal g.medal_info) := rfl

theorem assoc_fields_medal (g : GiftData) :
    assoc g.fields "medal" = some (serializeOptMedal g.medal) := rfl

set_option maxRecDepth 2000 in
/-- C10: deserializing the JSON serialization of any `GiftData` value
whose numeric fields are within their Rust integer ranges yields the
value back unchanged. -/
theorem C10_gift_roundtrip (g : GiftData) (h : g.wf) :
    GiftData.deser g.serialize = some g := by
  unfold GiftData.wf at h
  obtain ⟨hu, ⟨hn1, hn2⟩, ⟨hp1, hp2⟩, hmi, hme⟩ := h
  have hu0 : (0 : Int) ≤ (g.uid : Int) := Int.natCast_nonneg _
  have hu2 : (g.uid : Int) < 18446744073709551616 := by exact_mod_cast hu
  have eu : deserU64 (Json.num (g.uid : Int)) = some g.uid := by
    show (if 0 ≤ (g.uid : Int) ∧ (g.uid : Int) < 18446744073709551616 then
            some ((g.uid : Int)).toNat else none) = some g.uid
    rw [if_pos ⟨hu0, hu2⟩, Int.toNat_natCast]
  have en : deserI64 (Json.num g.num) = some g.num := by
    show (if -9223372036854775808 ≤ g.num ∧ g.num < 9223372036854775808 then
            some g.num else none) = some g.num
    rw [if_pos ⟨hn1, hn2⟩]
  have ep : deserI64 (Json.num g.price) = some g.price := by
    show (if -9223372036854775808 ≤ g.price ∧ g.price < 9223372036854775808 then
            some g.price else none) = some g.price
    rw [if_pos ⟨hp1, hp2⟩]
  have hcoin : CoinType.deser (CoinType.serialize g.coin_type) = some g.coin_type := by
    cases hcg : g.coin_type <;> rfl
  have hdmi : deserOptMedal g.fields "medal_info" = some g.medal_info :=
    deserOptMedal_serialize _ _ _ hmi (assoc_fields_medal_info g)
  have hdme : deserOptMedal g.fields "medal" = some g.medal :=
    deserOptMedal_serialize _ _ _ hme (assoc_fields_medal g)
  have egn : (some (Json.str g.gift_name)).bind deserString = some g.gift_name := rfl
  have eun : (some (Json.str g.uname)).bind deserString = some g.uname := rfl
  have euid : (some (Json.num (g.uid : Int))).bind deserU64 = some g.uid := by
    rw [Option.some_bind]
    exact eu
  have enum2 : (some (Json.num g.num)).bind deserI64 = some g.num := by
    rw [Option.some_bind]
    exact en
  have eprice : (some (Json.num g.price)).bind deserI64 = some g.price := by
    rw [Option.some_bind]
    exact ep
  have ecoin : (some (CoinType.serialize g.coin_type)).bind CoinType.deser =
      some g.coin_type := by
    rw [Option.some_bind]
    exact hcoin
  rw [GiftData.serialize_eq]
  simp only [GiftData.deser]
  simp only [assoc_fields_giftName, assoc_fields_uname, assoc_fields_uid,
             assoc_fields_num, assoc_fields_price, assoc_fields_coin_type]
  rw [egn, eun, euid, enum2, eprice, ecoin, hdmi, hdme]
  simp only [Option.some_bind]

/-- C10 witness: the round trip at a concrete gift carrying both medal
fields. -/
theorem C10_gift_roundtrip_witness :
    GiftData.deser (GiftData.serialize
      { gift_name := "flower", uname := "alice", uid := 12345, num := 2,
        price := 100, coin_type := .Gold,
        medal_info := some { name := "fans", level := 7 },
        medal := some { name := "club", level := 9 } }) =
      some { gift_name := "flower", uname := "alice", uid := 12345, num := 2,
             price := 100, coin_type := .Gold,
             medal_info := some { name := "fans", level := 7 },
             medal := some { name := "club", level := 9 } } :=
  C10_gift_roundtrip _ (by norm_num [GiftData.wf, Medal.wf])
